import Mathlib

/-!
Shallow embedding of the Art-Link client scripts (src/js/main.js and
src/js/gallery.js) and proofs about their observable behavior.

The scripts are single-threaded event handlers mutating page state; we model
each handler as a pure function on an explicit state record.  JavaScript's
remainder operator truncates toward zero, so it is embedded as Int.tmod.
DOM class toggles (classList.add / classList.remove / classList.toggle) on a
class that the script manages are embedded as Boolean flags.  A handler that
can throw (dereferencing the possibly-null result of a querySelector) returns
Except String instead.
-/

namespace ArtLink

/-- JavaScript % on integers: remainder truncated toward zero. -/
def jsRem (a b : Int) : Int := a.tmod b

/-- Config constant AUTO_SLIDE_INTERVAL_MS from main.js. -/
def AUTO_SLIDE_INTERVAL_MS : Nat := 7000

/-- State of the slide-controller module in main.js.  `numSlides` is
`slides.length` (fixed at script evaluation); `index` is the mutable cursor;
`autoSlideId` is the variable of the same name (null embedded as none);
`activeTimers` are the interval ids currently live in the browser (setInterval
returns a fresh id, clearInterval removes one); `nextTimerId` models the
browser's fresh-id supply; `transforms` is each slide's translateX percentage
set by showSlide; `bodyLoaded` is membership of "loaded" in
document.body.classList; `listenersAttached` records whether attachListeners
ran. -/
structure MainState where
  numSlides : Nat
  index : Int
  autoSlideId : Option Nat
  activeTimers : List Nat
  nextTimerId : Nat
  transforms : List Int
  bodyLoaded : Bool
  listenersAttached : Bool
  deriving Repr, DecidableEq

/-- The module state right after main.js is evaluated on a page carrying
`numSlides` slide panels: index = 0, autoSlideId = null, nothing loaded. -/
def initMainState (numSlides : Nat) : MainState :=
  { numSlides := numSlides
    index := 0
    autoSlideId := none
    activeTimers := []
    nextTimerId := 1
    transforms := []
    bodyLoaded := false
    listenersAttached := false }

/-- showSlide(i): sets every slide's transform to translateX(100 * (idx - i)%).
The optional gsap entrance animation mutates only the image's own style (a
cosmetic effect outside the controller's state) and is guarded by
window.gsap, so it contributes no state change here. -/
def showSlide (s : MainState) (i : Int) : MainState :=
  { s with transforms := (List.range s.numSlides).map (fun idx => 100 * ((idx : Int) - i)) }

/-- goNext(): index = (index + 1) % slides.length; showSlide(index).
Reachable only on pages where slides.length ≥ 1 (listeners and the timer are
attached only inside the `if (slides.length)` branch of the load handler). -/
def goNext (s : MainState) : MainState :=
  let i := jsRem (s.index + 1) (s.numSlides : Int)
  showSlide { s with index := i } i

/-- goPrev(): index = (index - 1 + slides.length) % slides.length;
showSlide(index). -/
def goPrev (s : MainState) : MainState :=
  let i := jsRem (s.index - 1 + (s.numSlides : Int)) (s.numSlides : Int)
  showSlide { s with index := i } i

/-- stopAutoSlide(): if autoSlideId is not null, clearInterval(autoSlideId)
and set autoSlideId to null; otherwise nothing happens. -/
def stopAutoSlide (s : MainState) : MainState :=
  match s.autoSlideId with
  | none => s
  | some id => { s with activeTimers := s.activeTimers.erase id, autoSlideId := none }

/-- startAutoSlide(): stopAutoSlide(); autoSlideId = setInterval(goNext, 7000).
setInterval registers a fresh live interval id and returns it. -/
def startAutoSlide (s : MainState) : MainState :=
  let s1 := stopAutoSlide s
  { s1 with
    autoSlideId := some s1.nextTimerId
    activeTimers := s1.activeTimers ++ [s1.nextTimerId]
    nextTimerId := s1.nextTimerId + 1 }

/-- attachListeners(): wires click and hover listeners; the wiring itself
changes no controller state beyond the fact of being attached. -/
def attachListeners (s : MainState) : MainState :=
  { s with listenersAttached := true }

/-- The window load handler in main.js: always add "loaded" to body.classList;
then, only if slides.length is truthy (nonzero), showSlide(index),
attachListeners(), startAutoSlide(). -/
def onLoad (s : MainState) : MainState :=
  let s1 := { s with bodyLoaded := true }
  if s1.numSlides ≠ 0 then
    startAutoSlide (attachListeners (showSlide s1 s1.index))
  else
    s1

/-- The two operations of the auto-advance timer interface. -/
inductive TimerOp where
  | start
  | stop
  deriving Repr, DecidableEq

/-- Apply one timer operation. -/
def applyTimerOp (s : MainState) : TimerOp → MainState
  | TimerOp.start => startAutoSlide s
  | TimerOp.stop => stopAutoSlide s

/-- Run a sequence of startAutoSlide / stopAutoSlide calls. -/
def runTimerOps (s : MainState) (ops : List TimerOp) : MainState :=
  ops.foldl applyTimerOp s

/-- The live intervals are exactly the one recorded in autoSlideId (if any):
the linking invariant between the module variable and the browser's timers. -/
def timerInv (s : MainState) : Prop :=
  s.activeTimers = s.autoSlideId.toList

/-- Navbar element state: membership of "scrolled" in its classList. -/
structure Navbar where
  scrolled : Bool
  deriving Repr, DecidableEq

/-- Page-chrome state for the handlers at the bottom of main.js: the navbar
element may be absent on a page (querySelector returns null); navLinksOpen is
membership of "open" in the nav-links classList, menuToggleActive membership
of "active" in the menu-toggle classList. -/
structure ChromeState where
  navbar : Option Navbar
  navLinksOpen : Bool
  menuToggleActive : Bool
  deriving Repr, DecidableEq

/-- The scroll handler: const nav = document.querySelector(".navbar"); then
if (window.scrollY > 60) nav.classList.add("scrolled") else
nav.classList.remove("scrolled").  When the navbar is absent, nav is null and
the classList access throws a TypeError before any state is changed. -/
def scrollHandler (scrollY : Int) (p : ChromeState) : Except String ChromeState :=
  match p.navbar with
  | none => Except.error "TypeError: cannot read classList of null"
  | some nav =>
      if 60 < scrollY then
        Except.ok { p with navbar := some { nav with scrolled := true } }
      else
        Except.ok { p with navbar := some { nav with scrolled := false } }

/-- The mobile menu toggle click handler (wired only when both elements
exist): toggle "open" on nav-links and "active" on menu-toggle. -/
def menuToggleClick (p : ChromeState) : ChromeState :=
  { p with navLinksOpen := !p.navLinksOpen, menuToggleActive := !p.menuToggleActive }

/-- State of the gallery lightbox in gallery.js: viewerImgSrc is the src
attribute of the viewer image element, viewerShow is membership of "show" in
the viewer overlay's classList. -/
structure GalleryView where
  viewerImgSrc : String
  viewerShow : Bool
  deriving Repr, DecidableEq

/-- The click listener attached to each gallery item image: viewerImg.src =
img.src; viewer.classList.add("show"). -/
def itemClick (imgSrc : String) (g : GalleryView) : GalleryView :=
  { g with viewerImgSrc := imgSrc, viewerShow := true }

/-- The close-control click listener: viewer.classList.remove("show"). -/
def closeClick (g : GalleryView) : GalleryView :=
  { g with viewerShow := false }

/-! Helper lemmas. -/

/-- On nonnegative operands the JavaScript remainder agrees with Euclidean
mod. -/
theorem jsRem_eq_emod {a b : Int} (ha : 0 ≤ a) (hb : 0 ≤ b) :
    jsRem a b = a % b :=
  Int.tmod_eq_emod ha hb

theorem goNext_numSlides (s : MainState) : (goNext s).numSlides = s.numSlides := rfl

theorem goNext_index (s : MainState) (ha : 0 ≤ s.index) :
    (goNext s).index = (s.index + 1) % (s.numSlides : Int) := by
  show jsRem (s.index + 1) (s.numSlides : Int) = _
  exact jsRem_eq_emod (by omega) (Int.ofNat_nonneg _)

theorem goPrev_index (s : MainState) (ha : 0 ≤ s.index) (hn : 1 ≤ s.numSlides) :
    (goPrev s).index = (s.index - 1 + (s.numSlides : Int)) % (s.numSlides : Int) := by
  show jsRem (s.index - 1 + (s.numSlides : Int)) (s.numSlides : Int) = _
  exact jsRem_eq_emod (by omega) (Int.ofNat_nonneg _)

theorem goNext_iter (k : Nat) (s : MainState) (hn : 1 ≤ s.numSlides)
    (h0 : 0 ≤ s.index) (h1 : s.index < (s.numSlides : Int)) :
    (goNext^[k] s).index = (s.index + k) % (s.numSlides : Int) ∧
    (goNext^[k] s).numSlides = s.numSlides := by
  induction k with
  | zero =>
      simpa using (Int.emod_eq_of_lt h0 h1).symm
  | succ k ih =>
      obtain ⟨ihi, ihn⟩ := ih
      have hNpos : (0 : Int) < (s.numSlides : Int) := by exact_mod_cast hn
      have hk0 : 0 ≤ (goNext^[k] s).index := by
        rw [ihi]; exact Int.emod_nonneg _ (by omega)
      rw [Function.iterate_succ_apply', goNext_numSlides, ihn,
        goNext_index _ hk0, ihn, ihi, Int.emod_add_emod]
      constructor
      · push_cast
        ring_nf
      · rfl

theorem goPrev_numSlides (s : MainState) : (goPrev s).numSlides = s.numSlides := rfl

theorem stopAutoSlide_autoSlideId (s : MainState) :
    (stopAutoSlide s).autoSlideId = none := by
  cases h : s.autoSlideId <;> simp [stopAutoSlide, h]

theorem stop_of_id_none (s : MainState) (h : s.autoSlideId = none) :
    stopAutoSlide s = s := by
  simp [stopAutoSlide, h]

theorem stop_stop (s : MainState) :
    stopAutoSlide (stopAutoSlide s) = stopAutoSlide s :=
  stop_of_id_none _ (stopAutoSlide_autoSlideId s)

theorem stopAutoSlide_index (s : MainState) : (stopAutoSlide s).index = s.index := by
  cases h : s.autoSlideId <;> simp [stopAutoSlide, h]

theorem startAutoSlide_index (s : MainState) : (startAutoSlide s).index = s.index := by
  simp [startAutoSlide, stopAutoSlide_index]

theorem onLoad_index (s : MainState) : (onLoad s).index = s.index := by
  by_cases h : s.numSlides ≠ 0 <;> simp [onLoad, h, startAutoSlide_index, attachListeners, showSlide]

theorem stopAutoSlide_timerInv (s : MainState) (h : timerInv s) :
    timerInv (stopAutoSlide s) := by
  unfold timerInv at h ⊢
  cases hid : s.autoSlideId with
  | none => simpa [stopAutoSlide, hid] using h
  | some id =>
      rw [hid] at h
      simp [stopAutoSlide, hid, h]

theorem startAutoSlide_timerInv (s : MainState) (h : timerInv s) :
    timerInv (startAutoSlide s) := by
  have h2 := stopAutoSlide_timerInv s h
  have h3 := stopAutoSlide_autoSlideId s
  unfold timerInv at h2 ⊢
  rw [h3] at h2
  simp [startAutoSlide, h2]

theorem runTimerOps_timerInv (ops : List TimerOp) (s : MainState) (h : timerInv s) :
    timerInv (runTimerOps s ops) := by
  induction ops generalizing s with
  | nil => exact h
  | cons op ops ih =>
      show timerInv (List.foldl applyTimerOp (applyTimerOp s op) ops)
      cases op with
      | start => exact ih _ (startAutoSlide_timerInv s h)
      | stop => exact ih _ (stopAutoSlide_timerInv s h)

/-! Claim theorems. -/

/-- C3: for every sequence length N ≥ 1 and every valid starting index,
invoking goNext N times returns currentIndex to its starting value, each
single step advancing by one with wrap-around to 0 after the last slide. -/
theorem goNext_cycle (s : MainState) (hn : 1 ≤ s.numSlides)
    (h0 : 0 ≤ s.index) (h1 : s.index < (s.numSlides : Int)) :
    (goNext^[s.numSlides] s).index = s.index ∧
    (goNext s).index =
      (if s.index + 1 = (s.numSlides : Int) then 0 else s.index + 1) := by
  have hNpos : (0 : Int) < (s.numSlides : Int) := by exact_mod_cast hn
  constructor
  · rw [(goNext_iter s.numSlides s hn h0 h1).1, Int.add_emod_self,
      Int.emod_eq_of_lt h0 h1]
  · rw [goNext_index s h0]
    by_cases h : s.index + 1 = (s.numSlides : Int)
    · simp [h]
    · rw [if_neg h, Int.emod_eq_of_lt (by omega) (by omega)]

/-- Witness for goNext_cycle at N = 3, starting index 0. -/
theorem goNext_cycle_witness :
    1 ≤ (initMainState 3).numSlides ∧
    (goNext^[(initMainState 3).numSlides] (initMainState 3)).index =
      (initMainState 3).index ∧
    (goNext (initMainState 3)).index =
      (if (initMainState 3).index + 1 = ((initMainState 3).numSlides : Int) then 0
       else (initMainState 3).index + 1) :=
  ⟨by decide,
    (goNext_cycle (initMainState 3) (by decide) (by decide) (by decide)).1,
    (goNext_cycle (initMainState 3) (by decide) (by decide) (by decide)).2⟩

/-- C7: for every non-empty slide sequence the invariant
0 ≤ currentIndex < numSlides holds initially (currentIndex = 0) and is
preserved by every operation, in particular by goNext and goPrev; the timer
operations, the load handler and showSlide leave the index unchanged. -/
theorem currentIndex_invariant (s : MainState) (hn : 1 ≤ s.numSlides)
    (h0 : 0 ≤ s.index) (h1 : s.index < (s.numSlides : Int)) :
    (initMainState s.numSlides).index = 0 ∧
    (0 ≤ (goNext s).index ∧ (goNext s).index < ((goNext s).numSlides : Int)) ∧
    (0 ≤ (goPrev s).index ∧ (goPrev s).index < ((goPrev s).numSlides : Int)) ∧
    (startAutoSlide s).index = s.index ∧
    (stopAutoSlide s).index = s.index ∧
    (onLoad s).index = s.index ∧
    ∀ i, (showSlide s i).index = s.index := by
  have hNpos : (0 : Int) < (s.numSlides : Int) := by exact_mod_cast hn
  have hNe : ((s.numSlides : Int)) ≠ 0 := by omega
  refine ⟨rfl, ⟨?_, ?_⟩, ⟨?_, ?_⟩, startAutoSlide_index s, stopAutoSlide_index s,
    onLoad_index s, fun i => rfl⟩
  · rw [goNext_index s h0]; exact Int.emod_nonneg _ hNe
  · rw [goNext_numSlides, goNext_index s h0]; exact Int.emod_lt_of_pos _ hNpos
  · rw [goPrev_index s h0 hn]; exact Int.emod_nonneg _ hNe
  · rw [goPrev_numSlides, goPrev_index s h0 hn]; exact Int.emod_lt_of_pos _ hNpos

/-- Witness for currentIndex_invariant at N = 2, index 0. -/
theorem currentIndex_invariant_witness :
    1 ≤ (initMainState 2).numSlides ∧
    (0 ≤ (goNext (initMainState 2)).index ∧
      (goNext (initMainState 2)).index < ((goNext (initMainState 2)).numSlides : Int)) ∧
    (0 ≤ (goPrev (initMainState 2)).index ∧
      (goPrev (initMainState 2)).index < ((goPrev (initMainState 2)).numSlides : Int)) :=
  ⟨by decide,
    (currentIndex_invariant (initMainState 2) (by decide) (by decide) (by decide)).2.1,
    (currentIndex_invariant (initMainState 2) (by decide) (by decide) (by decide)).2.2.1⟩

/-- C8: for every sequence length N ≥ 1, calling goPrev when currentIndex = 0
(the state immediately after page init) sets currentIndex to N - 1. -/
theorem goPrev_wrap (s : MainState) (hn : 1 ≤ s.numSlides) (h0 : s.index = 0) :
    (goPrev s).index = (s.numSlides : Int) - 1 := by
  have hNpos : (0 : Int) < (s.numSlides : Int) := by exact_mod_cast hn
  rw [goPrev_index s (by omega) hn, h0,
    show (0 : Int) - 1 + (s.numSlides : Int) = (s.numSlides : Int) - 1 by ring]
  exact Int.emod_eq_of_lt (by omega) (by omega)

/-- Witness for goPrev_wrap at N = 5. -/
theorem goPrev_wrap_witness :
    1 ≤ (initMainState 5).numSlides ∧ (initMainState 5).index = 0 ∧
    (goPrev (initMainState 5)).index = ((initMainState 5).numSlides : Int) - 1 :=
  ⟨by decide, rfl, goPrev_wrap (initMainState 5) (by decide) rfl⟩

/-- C4: startAutoSlide always cancels the prior timer first (it factors
through stopAutoSlide), so every sequence of startAutoSlide / stopAutoSlide
calls from the initial state leaves at most one live interval; two
consecutive startAutoSlide calls leave exactly one. -/
theorem at_most_one_timer (n : Nat) (ops : List TimerOp) :
    (runTimerOps (initMainState n) ops).activeTimers.length ≤ 1 ∧
    (∀ s : MainState, startAutoSlide s = startAutoSlide (stopAutoSlide s)) ∧
    (runTimerOps (initMainState n) [TimerOp.start, TimerOp.start]).activeTimers.length = 1 := by
  refine ⟨?_, ?_, rfl⟩
  · have h := runTimerOps_timerInv ops (initMainState n) rfl
    unfold timerInv at h
    rw [h]
    cases (runTimerOps (initMainState n) ops).autoSlideId <;> simp
  · intro s
    simp [startAutoSlide, stop_stop s]

/-- C9: stopAutoSlide with no active timer is a no-op, and stopAutoSlide is
idempotent. -/
theorem stopAutoSlide_idempotent (s : MainState) :
    (s.autoSlideId = none → stopAutoSlide s = s) ∧
    stopAutoSlide (stopAutoSlide s) = stopAutoSlide s :=
  ⟨fun h => stop_of_id_none s h, stop_stop s⟩

/-- Witness for stopAutoSlide_idempotent on the initial state (no timer). -/
theorem stopAutoSlide_idempotent_witness :
    stopAutoSlide (initMainState 3) = initMainState 3 :=
  (stopAutoSlide_idempotent (initMainState 3)).1 rfl

/-- C2: on a page with zero slide panels the load handler only marks the body
loaded: no timer is created, no listener attached, no slide operation
performed, and the rest of the state is untouched. -/
theorem onLoad_no_slides (s : MainState) (h : s.numSlides = 0) :
    onLoad s = { s with bodyLoaded := true } ∧
    (onLoad s).bodyLoaded = true ∧
    (onLoad s).autoSlideId = s.autoSlideId ∧
    (onLoad s).activeTimers = s.activeTimers ∧
    (onLoad s).listenersAttached = s.listenersAttached ∧
    (onLoad s).index = s.index ∧
    (onLoad s).transforms = s.transforms := by
  have he : onLoad s = { s with bodyLoaded := true } := by simp [onLoad, h]
  rw [he]
  exact ⟨rfl, rfl, rfl, rfl, rfl, rfl, rfl⟩

/-- Witness for onLoad_no_slides on a page with zero slides. -/
theorem onLoad_no_slides_witness :
    (initMainState 0).numSlides = 0 ∧
    onLoad (initMainState 0) = { initMainState 0 with bodyLoaded := true } :=
  ⟨rfl, (onLoad_no_slides (initMainState 0) rfl).1⟩

/-- C1 counterexample: on a page with no navbar element, a scroll event makes
the handler raise a TypeError (the null querySelector result is
dereferenced), so it is not a graceful error-free no-op. -/
theorem scroll_no_navbar_cex :
    scrollHandler 100 { navbar := none, navLinksOpen := false, menuToggleActive := false } =
      Except.error "TypeError: cannot read classList of null" ∧
    (scrollHandler 100
      { navbar := none, navLinksOpen := false, menuToggleActive := false }).isOk = false :=
  ⟨rfl, rfl⟩

/-- C1 amended: on every page where the navbar element is absent, each scroll
event makes the handler throw a TypeError before any state is changed. -/
theorem scroll_no_navbar_raises (y : Int) (p : ChromeState) (h : p.navbar = none) :
    scrollHandler y p = Except.error "TypeError: cannot read classList of null" := by
  simp [scrollHandler, h]

/-- Witness for scroll_no_navbar_raises at offset 0. -/
theorem scroll_no_navbar_raises_witness :
    ({ navbar := none, navLinksOpen := false, menuToggleActive := false : ChromeState }).navbar
      = none ∧
    scrollHandler 0 { navbar := none, navLinksOpen := false, menuToggleActive := false } =
      Except.error "TypeError: cannot read classList of null" :=
  ⟨rfl, scroll_no_navbar_raises 0 _ rfl⟩

/-- C6: with the navbar present, after any scroll event the scrolled flag
equals (offset > 60) regardless of its previous value; at offset 60 it is
false, at 61 it is true. -/
theorem scrolled_iff_above_60 (y : Int) (p : ChromeState) (nav : Navbar)
    (h : p.navbar = some nav) :
    scrollHandler y p =
      Except.ok { p with navbar := some { scrolled := decide (60 < y) } } ∧
    scrollHandler 60 p = Except.ok { p with navbar := some { scrolled := false } } ∧
    scrollHandler 61 p = Except.ok { p with navbar := some { scrolled := true } } := by
  refine ⟨?_, ?_, ?_⟩
  · by_cases hy : (60 : Int) < y <;> simp [scrollHandler, h, hy]
  · norm_num [scrollHandler, h]
  · norm_num [scrollHandler, h]

/-- Witness for scrolled_iff_above_60 at offset 100 on a navbar page. -/
theorem scrolled_iff_above_60_witness :
    ({ navbar := some { scrolled := false }, navLinksOpen := false,
        menuToggleActive := false : ChromeState }).navbar = some { scrolled := false } ∧
    scrollHandler 100
        { navbar := some { scrolled := false }, navLinksOpen := false,
          menuToggleActive := false } =
      Except.ok
        { navbar := some { scrolled := decide ((60 : Int) < 100) }, navLinksOpen := false,
          menuToggleActive := false } :=
  ⟨rfl, (scrolled_iff_above_60 100 _ { scrolled := false } rfl).1⟩

/-- C5: clicking the item with source a.jpg then the item with source b.jpg
leaves the overlay visible and showing b.jpg (the reference is replaced);
clicking close then hides the overlay while the displayed reference remains
b.jpg. -/
theorem gallery_replace_then_close (g : GalleryView) :
    (itemClick "b.jpg" (itemClick "a.jpg" g)).viewerShow = true ∧
    (itemClick "b.jpg" (itemClick "a.jpg" g)).viewerImgSrc = "b.jpg" ∧
    (closeClick (itemClick "b.jpg" (itemClick "a.jpg" g))).viewerShow = false ∧
    (closeClick (itemClick "b.jpg" (itemClick "a.jpg" g))).viewerImgSrc = "b.jpg" :=
  ⟨rfl, rfl, rfl, rfl⟩

/-- C10: clicking any gallery item while the overlay is already visible keeps
it visible and sets the displayed reference to the clicked source; clicking
the same item twice gives the same state as clicking it once. -/
theorem itemClick_idempotent (g : GalleryView) (src : String)
    (h : g.viewerShow = true) :
    (itemClick src g).viewerShow = true ∧
    (itemClick src g).viewerImgSrc = src ∧
    itemClick src (itemClick src g) = itemClick src g :=
  ⟨rfl, rfl, rfl⟩

/-- Witness for itemClick_idempotent with a visible overlay. -/
theorem itemClick_idempotent_witness :
    ({ viewerImgSrc := "a.jpg", viewerShow := true : GalleryView }).viewerShow = true ∧
    itemClick "b.jpg"
        (itemClick "b.jpg" { viewerImgSrc := "a.jpg", viewerShow := true }) =
      itemClick "b.jpg" { viewerImgSrc := "a.jpg", viewerShow := true } :=
  ⟨rfl,
    (itemClick_idempotent { viewerImgSrc := "a.jpg", viewerShow := true } "b.jpg" rfl).2.2⟩

end ArtLink
